import Mathlib

/-!
Shallow embedding of the pandas operations demonstrated by the notebook
`Module1/05 - Getting started with pandas.ipynb`: loading a tab-separated
gene-expression matrix with `pd.read_csv(file, sep='\t', header=0,
index_col=0)`, column selection `df[sample]`, label-based indexing
`df.loc`, positional slicing `df.iloc`, boolean-mask selection
`df.loc[sel]`, and `pd.concat` along both axes.  A cell is `Option ℚ`,
with `none` playing the role of `NaN`.
-/

set_option autoImplicit false

namespace GeneWorkshop

/-- A pandas `Series`: a labelled vector with a `name`
(`Series.index`, `Series.name`, and the values). -/
structure Series (α : Type) where
  index : List String
  name : String
  values : List α
  deriving DecidableEq

/-- A pandas `DataFrame`: row labels (`index`), column labels (`columns`)
and the tabular data, stored row by row. -/
structure DataFrame (α : Type) where
  index : List String
  columns : List String
  data : List (List α)
  deriving DecidableEq

/-- A decimal literal as written in the expression file, e.g. `2.51521`:
`mantissa` is the digit string read as a natural number and `scale` the
number of digits after the point, so the value denoted is
`mantissa / 10 ^ scale`. -/
structure Decimal where
  mantissa : Nat
  scale : Nat
  deriving DecidableEq

/-- The rational number a `Decimal` literal denotes. -/
def Decimal.val (d : Decimal) : ℚ :=
  (d.mantissa : ℚ) / (10 : ℚ) ^ d.scale

/-- The cell type of an expression matrix: a decimal value, or `none` (NaN). -/
abbrev Cell := Option Decimal

instance {ε α : Type} [DecidableEq ε] [DecidableEq α] :
    DecidableEq (Except ε α) := fun a b =>
  match a, b with
  | .ok x, .ok y =>
    if h : x = y then .isTrue (by rw [h]) else .isFalse (by simp [h])
  | .error x, .error y =>
    if h : x = y then .isTrue (by rw [h]) else .isFalse (by simp [h])
  | .ok _, .error _ => .isFalse (by simp)
  | .error _, .ok _ => .isFalse (by simp)

/-- The shape `df.shape`: number of rows and number of columns. -/
def DataFrame.shape {α : Type} (df : DataFrame α) : Nat × Nat :=
  (df.index.length, df.columns.length)

/-- The pandas `Series.equals`: same labels and same elements
(the `name` attribute is not compared). -/
def Series.equals {α : Type} [DecidableEq α] (a b : Series α) : Bool :=
  decide (a.index = b.index) && decide (a.values = b.values)

/-- Splitting a list of characters at every occurrence of a separator,
as Python's `str.split(sep)` does (empty fields are kept). -/
def splitChar (sep : Char) : List Char → List (List Char)
  | [] => [[]]
  | c :: cs =>
    let r := splitChar sep cs
    if c = sep then [] :: r
    else
      match r with
      | [] => [[c]]
      | g :: gs => (c :: g) :: gs

/-- Splitting a line at tab characters, the field separator passed to
`pd.read_csv` via `sep='\t'`. -/
def splitTab (s : String) : List String :=
  (splitChar '\t' s.data).map fun cs => String.mk cs

/-- Numeric value of a decimal digit character. -/
def digitVal (c : Char) : Option Nat :=
  if c.isDigit then some (c.toNat - 48) else none

/-- Parsing a non-empty run of decimal digits into a natural number. -/
def parseDigits : List Char → Nat → Option Nat
  | [], acc => some acc
  | c :: cs, acc => do
    let d ← digitVal c
    parseDigits cs (acc * 10 + d)

/-- Parsing a decimal literal such as `2.51521` (the format of the
expression values in the tab-separated input file). -/
def parseDecimal (s : String) : Option Decimal :=
  match splitChar '.' s.data with
  | [w] => do
    if w.isEmpty then none
    else
      let n ← parseDigits w 0
      pure ⟨n, 0⟩
  | [w, f] => do
    if w.isEmpty ∨ f.isEmpty then none
    else
      let n ← parseDigits (w ++ f) 0
      pure ⟨n, f.length⟩
  | _ => none

/-- Parsing one body line of the expression file: the leading field is the
gene identifier (consumed by `index_col=0`), the remaining fields are
decimal expression values. -/
def parseLine (line : String) : Option (String × List Decimal) :=
  match splitTab line with
  | [] => none
  | g :: cells => (cells.mapM parseDecimal).map fun vs => (g, vs)

/-- Parsing every body line of the expression file, failing if any line
is malformed. -/
def parseBody : List String → Option (List (String × List Decimal))
  | [] => some []
  | l :: ls => do
    let r ← parseLine l
    let rs ← parseBody ls
    pure (r :: rs)

/-- Embedding of `pd.read_csv(expression_file, sep='\t', header=0, index_col=0)`:
the first line is the header (its leading field is the index name, the
rest are the sample identifiers, which become the column labels); every
following line contributes one gene row.  Any failure surfaces as an
`Except.error`, mirroring an unhandled library exception. -/
def read_csv (lines : List String) : Except String (DataFrame Decimal) :=
  match lines with
  | [] => .error "EmptyDataError: no columns to parse from file"
  | header :: body =>
    match splitTab header with
    | [] => .error "EmptyDataError: no columns to parse from file"
    | _corner :: samples =>
      match parseBody body with
      | none => .error "ParserError: malformed row"
      | some rows => .ok ⟨rows.map Prod.fst, samples, rows.map Prod.snd⟩

/-- Position of the first occurrence of a label in a label list
(the lookup behind pandas label-based indexing). -/
def findLabel (c : String) : List String → Option Nat
  | [] => none
  | x :: xs => if x = c then some 0 else (findLabel c xs).map (· + 1)

/-- Extracting the column at position `j` from the row-major data
(one route pandas takes for `df[s]`). -/
def columnAt {α : Type} [Inhabited α] (j : Nat) : List (List α) → List α
  | [] => []
  | row :: rest => row.getD j default :: columnAt j rest

/-- Embedding of `df[s]` for a column label `s`: the column as a `Series` whose index
is the row labels and whose name is the selected label. -/
def dfGetItem {α : Type} [Inhabited α] (df : DataFrame α) (s : String) :
    Option (Series α) :=
  match findLabel s df.columns with
  | none => none
  | some j => some ⟨df.index, s, columnAt j df.data⟩

/-- Embedding of `df.loc[:, s]` for a column label `s`: label-based column selection. -/
def dfLocCol {α : Type} [Inhabited α] (df : DataFrame α) (s : String) :
    Option (Series α) :=
  match findLabel s df.columns with
  | none => none
  | some j => some ⟨df.index, s, df.data.map fun row => row.getD j default⟩

/-- Embedding of `df.loc[g]` for a row label `g`: the row as a `Series` whose index is
the column labels and whose name is the selected label. -/
def dfLocRow {α : Type} (df : DataFrame α) (g : String) : Option (Series α) :=
  match findLabel g df.index with
  | none => none
  | some i => some ⟨df.columns, g, df.data.getD i []⟩

/-- Embedding of `df.iloc[:, :n]`: all rows, the first `n` columns. -/
def ilocColsTake {α : Type} (df : DataFrame α) (n : Nat) : DataFrame α :=
  ⟨df.index, df.columns.take n, df.data.map fun row => row.take n⟩

/-- Embedding of `df.iloc[:, -n:]`: all rows, the last `n` columns. -/
def ilocColsLast {α : Type} (df : DataFrame α) (n : Nat) : DataFrame α :=
  ⟨df.index, df.columns.drop (df.columns.length - n),
    df.data.map fun row => row.drop (row.length - n)⟩

/-- Whether the character list `p` is an initial segment of `s`. -/
def startsWithChars : List Char → List Char → Bool
  | [], _ => true
  | _ :: _, [] => false
  | p :: ps, s :: ss => decide (p = s) && startsWithChars ps ss

/-- Python's `s.startswith(p)` on strings, as used by
`df.index.str.startswith('A')`. -/
def strStartsWith (s p : String) : Bool :=
  startsWithChars p.data s.data

/-- Embedding of `df.index.str.startswith(p)`: the Boolean array with one entry per
row, true where the row label starts with `p`. -/
def indexStartsWith {α : Type} (df : DataFrame α) (p : String) : List Bool :=
  df.index.map fun g => strStartsWith g p

/-- Keeping the entries of `xs` at the positions where `sel` is true. -/
def applyMask {α : Type} (xs : List α) (sel : List Bool) : List α :=
  ((xs.zip sel).filter fun p => p.2).map Prod.fst

/-- Embedding of `df.loc[sel]` for a Boolean array `sel`: row selection by mask. -/
def locMask {α : Type} (df : DataFrame α) (sel : List Bool) : DataFrame α :=
  ⟨applyMask df.index sel, df.columns, applyMask df.data sel⟩

/-- The label list of the outer join pandas builds when concatenating:
the labels of the first operand, then the labels of the second operand
not already present. -/
def unionLabels (xs ys : List String) : List String :=
  xs ++ ys.filter fun y => decide (y ∉ xs)

/-- The value a row holds for column label `c`, given the column labels
of the table the row came from; `none` (NaN) when the label is absent. -/
def lookupRow {α : Type} (cols : List String) (row : List (Option α))
    (c : String) : Option α :=
  match findLabel c cols with
  | none => none
  | some j => row.getD j none

/-- Reindexing a row to a new column-label list, filling missing labels
with `none` (NaN) — the alignment step of `pd.concat`. -/
def alignRow {α : Type} (allCols : List String) (cols : List String)
    (row : List (Option α)) : List (Option α) :=
  allCols.map (lookupRow cols row)

/-- The row of `df` labelled `r`, or a row of `NaN`s when `df` has no
row `r` — the fill step of `pd.concat(axis=1)`. -/
def rowAt {α : Type} (df : DataFrame (Option α)) (r : String) :
    List (Option α) :=
  match findLabel r df.index with
  | none => List.replicate df.columns.length none
  | some i => df.data.getD i []

/-- Embedding of `pd.concat([X, Y], axis=0)`: rows of `X` followed by rows of `Y`,
with every row aligned to the outer join of the two column-label lists
(missing cells become NaN). -/
def concatAxis0 {α : Type} (X Y : DataFrame (Option α)) :
    DataFrame (Option α) :=
  let cols := unionLabels X.columns Y.columns
  ⟨X.index ++ Y.index, cols,
    X.data.map (alignRow cols X.columns) ++ Y.data.map (alignRow cols Y.columns)⟩

/-- The row labelled `r` of the column-wise concatenation: the row from
`X` (or NaN fill) followed by the row from `Y` (or NaN fill). -/
def pairRows {α : Type} (X Y : DataFrame (Option α)) (r : String) :
    List (Option α) :=
  rowAt X r ++ rowAt Y r

/-- Embedding of `pd.concat([X, Y], axis=1)`: columns of `X` followed by columns of
`Y`; the row set is the outer join of the two row-label lists, and a row
a table does not have is filled with NaN on that table's side. -/
def concatAxis1 {α : Type} (X Y : DataFrame (Option α)) :
    DataFrame (Option α) :=
  let idx := unionLabels X.index Y.index
  ⟨idx, X.columns ++ Y.columns, idx.map (pairRows X Y)⟩

/-- Embedding of `pd.concat([X, Y], axis=a)` for the two axes the notebook uses. -/
def concat {α : Type} (X Y : DataFrame (Option α)) (axis : Nat) :
    DataFrame (Option α) :=
  if axis = 1 then concatAxis1 X Y else concatAxis0 X Y

/-- Embedding of `pd.concat([X, Y])` with the `axis` argument omitted: pandas
defaults it to 0. -/
def concatNoAxis {α : Type} (X Y : DataFrame (Option α)) :
    DataFrame (Option α) :=
  concat X Y 0

/-- Wrapping every parsed cell in `some`: a freshly loaded expression
matrix has no NaN. -/
def toCells (df : DataFrame Decimal) : DataFrame Cell :=
  ⟨df.index, df.columns, df.data.map fun row => row.map some⟩

/-- The path the notebook builds with
`os.path.join('..', 'data', 'brca_expression_5yr_dead.tsv')`. -/
def expression_file : String :=
  "../data/brca_expression_5yr_dead.tsv"

/-- The variables the notebook's code cells bind, in order; `df` is the
DataFrame loaded from the expression file and is never rebound. -/
structure NotebookRun where
  df : DataFrame Cell
  profile : Option (Series Cell)
  gene_expression : Option (Series Cell)
  profile2 : Option (Series Cell)
  first_samples : DataFrame Cell
  last_samples : DataFrame Cell
  sel : List Bool
  A_only : DataFrame Cell
  Z_only : DataFrame Cell
  combined : DataFrame Cell
  messy : DataFrame Cell

/-- The notebook's code cells after loading, as explicit state passing:
each cell reads `df` (or an earlier binding) and binds a new variable;
none of the demonstrated operations mutates its operand. -/
def runNotebook (df : DataFrame Cell) : NotebookRun :=
  let profile := dfGetItem df "TCGA-B6-A0WW-01A"
  let gene_expression := dfLocRow df "A2M"
  let profile2 := dfLocCol df "TCGA-B6-A0WW-01A"
  let first_samples := ilocColsTake df 10
  let last_samples := ilocColsLast df 10
  let sel := indexStartsWith df "A"
  let A_only := locMask df sel
  let Z_only := locMask df (indexStartsWith df "Z")
  let combined := concat A_only Z_only 0
  let messy := concat A_only Z_only 1
  ⟨df, profile, gene_expression, profile2, first_samples, last_samples,
    sel, A_only, Z_only, combined, messy⟩

/-- Loading the expression file and running the notebook's cells: no
cell catches exceptions, so a loading error propagates unchanged. -/
def loadAndRun (lines : List String) : Except String NotebookRun :=
  match read_csv lines with
  | .error e => .error e
  | .ok df => .ok (runNotebook (toCells df))

/-- An observable effect of running a notebook cell. -/
inductive Effect where
  | fileRead : String → Effect
  | fileWrite : String → Effect
  | consolePrint : String → Effect
  deriving DecidableEq

/-- Whether an effect writes to the file system. -/
def Effect.isWrite : Effect → Bool
  | .fileWrite _ => true
  | _ => false

/-- Whether an effect reads from the file system. -/
def Effect.isRead : Effect → Bool
  | .fileRead _ => true
  | _ => false

/-- Console rendering of one cell value. -/
def cellRender : Cell → String
  | none => "NaN"
  | some d => toString d.mantissa ++ "/10^" ++ toString d.scale

/-- The effect trace of the notebook's code cells, in order: every
library call either prints to the console or (once) reads the
expression file. -/
def notebookEffects (df : DataFrame Cell) : List Effect :=
  let nb := runNotebook df
  [Effect.consolePrint ("Path to expression file: " ++ expression_file),
    Effect.fileRead expression_file,
    Effect.consolePrint ("Matrix shape: " ++ toString df.shape),
    Effect.consolePrint ("Genes: " ++ toString (df.index.take 5)),
    Effect.consolePrint ("Samples: " ++ toString (df.columns.take 5)),
    Effect.consolePrint
      (toString (nb.profile.map fun s => (s.values.take 3).map cellRender)),
    Effect.consolePrint "<class 'pandas.core.series.Series'>",
    Effect.consolePrint
      (toString (nb.gene_expression.map fun s => (s.values.take 3).map cellRender)),
    Effect.consolePrint "",
    Effect.consolePrint "Type: <class 'pandas.core.series.Series'>",
    Effect.consolePrint
      (toString (Option.map₂ Series.equals nb.profile nb.profile2)),
    Effect.consolePrint (toString nb.first_samples.shape),
    Effect.consolePrint (toString nb.last_samples.shape),
    Effect.consolePrint "<class 'numpy.ndarray'>",
    Effect.consolePrint
      ("Number of genes starting with \"A\": " ++ toString (nb.sel.count true)),
    Effect.consolePrint (toString nb.A_only.shape),
    Effect.consolePrint (toString nb.Z_only.shape),
    Effect.consolePrint (toString nb.combined.shape),
    Effect.consolePrint (toString nb.messy.shape),
    Effect.consolePrint
      (toString ((nb.messy.data.take 2).map fun row => row.map cellRender))]

/-- A small concrete expression matrix in the format of the workshop
data, used to exercise the theorems on explicit inputs. -/
def sampleDF : DataFrame Cell :=
  ⟨["G1", "G2"], ["S1", "S2"],
    [[some ⟨15, 1⟩, some ⟨225, 2⟩], [some ⟨5, 1⟩, some ⟨31, 1⟩]]⟩

/-- A one-gene matrix with twelve samples, wide enough for the slicing
examples. -/
def sampleWideDF : DataFrame Cell :=
  ⟨["G1"], ["a", "b", "c", "d", "e", "f", "g", "h", "i", "j", "k", "l"],
    [[some ⟨1, 0⟩, some ⟨2, 0⟩, some ⟨3, 0⟩, some ⟨4, 0⟩, some ⟨5, 0⟩,
      some ⟨6, 0⟩, some ⟨7, 0⟩, some ⟨8, 0⟩, some ⟨9, 0⟩, some ⟨10, 0⟩,
      some ⟨11, 0⟩, some ⟨12, 0⟩]]⟩

/-- A one-row matrix standing in for the `A_only` selection. -/
def rowDF_A : DataFrame Cell :=
  ⟨["A1BG"], ["S1", "S2"], [[some ⟨1, 0⟩, some ⟨2, 0⟩]]⟩

/-- A one-row matrix standing in for the `Z_only` selection, with the
same columns as `rowDF_A` but a disjoint row set. -/
def rowDF_Z : DataFrame Cell :=
  ⟨["ZZZ3"], ["S1", "S2"], [[some ⟨3, 0⟩, none]]⟩

/-- A one-row table with 30 columns, standing in for `A_only`. -/
def wideDF_A : DataFrame Cell :=
  ⟨["A1BG"], List.replicate 30 "s", [List.replicate 30 (some ⟨1, 0⟩)]⟩

/-- A one-row table with the same 30 columns as `wideDF_A` and a
disjoint row set, standing in for `Z_only`. -/
def wideDF_Z : DataFrame Cell :=
  ⟨["ZZZ3"], List.replicate 30 "s", [List.replicate 30 (some ⟨2, 0⟩)]⟩

/-! ### Helper lemmas -/

theorem columnAt_eq_map {α : Type} [Inhabited α] (j : Nat) :
    ∀ L : List (List α), columnAt j L = L.map fun row => row.getD j default
  | [] => rfl
  | row :: rest => by simp [columnAt, columnAt_eq_map j rest]

theorem findLabel_some_spec (c : String) :
    ∀ (xs : List String) (k : Nat), findLabel c xs = some k →
      k < xs.length ∧ xs.getD k "" = c
  | [], k => by simp [findLabel]
  | x :: xs, k => by
    by_cases hx : x = c
    · simp only [findLabel, if_pos hx]
      intro h
      obtain rfl : (0 : Nat) = k := Option.some.inj h
      simpa using hx
    · simp only [findLabel, if_neg hx]
      cases hmap : findLabel c xs with
      | none => simp
      | some k₀ =>
        intro hk
        have hk' : k₀ + 1 = k := by simpa using hk
        subst hk'
        have ih := findLabel_some_spec c xs k₀ hmap
        exact ⟨Nat.succ_lt_succ ih.1, by simpa using ih.2⟩

theorem findLabel_mem (c : String) :
    ∀ xs : List String, c ∈ xs → ∃ k, findLabel c xs = some k
  | [], h => by simp at h
  | x :: xs, h => by
    by_cases hx : x = c
    · exact ⟨0, by simp [findLabel, hx]⟩
    · have hc : c ∈ xs := by
        rcases List.mem_cons.mp h with h1 | h1
        · exact absurd h1.symm hx
        · exact h1
      obtain ⟨k, hk⟩ := findLabel_mem c xs hc
      exact ⟨k + 1, by simp [findLabel, hx, hk]⟩

theorem findLabel_eq_none (c : String) :
    ∀ xs : List String, c ∉ xs → findLabel c xs = none
  | [], _ => rfl
  | x :: xs, h => by
    have hx : x ≠ c := fun hxc => h (by simp [hxc])
    have hc : c ∉ xs := fun hcx => h (List.mem_cons_of_mem _ hcx)
    simp [findLabel, hx, findLabel_eq_none c xs hc]

theorem applyMask_cons {α : Type} (x : α) (xs : List α) (b : Bool)
    (sel : List Bool) :
    applyMask (x :: xs) (b :: sel) =
      if b then x :: applyMask xs sel else applyMask xs sel := by
  cases b <;> simp [applyMask]

theorem applyMask_length {α : Type} :
    ∀ (xs : List α) (sel : List Bool), sel.length = xs.length →
      (applyMask xs sel).length = sel.count true
  | [], [], _ => rfl
  | [], _ :: _, h => by simp at h
  | _ :: _, [], h => by simp at h
  | x :: xs, b :: sel, h => by
    have h' : sel.length = xs.length := Nat.succ.inj h
    cases b <;>
      simp [applyMask_cons, applyMask_length xs sel h', List.count_cons]

theorem applyMask_sublist {α : Type} (xs : List α) (sel : List Bool)
    (h : sel.length = xs.length) : (applyMask xs sel).Sublist xs := by
  have h1 : (((xs.zip sel).filter fun p => p.2).map Prod.fst).Sublist
      ((xs.zip sel).map Prod.fst) := (List.filter_sublist _).map Prod.fst
  rwa [List.map_fst_zip xs sel (le_of_eq h.symm)] at h1

theorem applyMask_eq_range {α : Type} :
    ∀ (xs : List α) (sel : List Bool), sel.length = xs.length →
      applyMask xs sel = (List.range xs.length).filterMap fun i =>
        if sel.getD i false then xs.get? i else none
  | [], [], _ => rfl
  | [], _ :: _, h => by simp at h
  | _ :: _, [], h => by simp at h
  | x :: xs, b :: sel, h => by
    have h' : sel.length = xs.length := Nat.succ.inj h
    have ih := applyMask_eq_range xs sel h'
    rw [applyMask_cons]
    have hcomp :
        ((fun i => if (b :: sel).getD i false then (x :: xs).get? i else none) ∘
          Nat.succ) = fun i => if sel.getD i false then xs.get? i else none := by
      funext i
      simp [Function.comp]
    cases b <;>
      (rw [show (x :: xs).length = xs.length + 1 from rfl, List.range_succ_eq_map,
        List.filterMap_cons, List.filterMap_map, hcomp]
       simp [ih])

theorem lookupRow_cons_ne {α : Type} (c0 x : String) (cs : List String)
    (v : Option α) (vs : List (Option α)) (hx : x ≠ c0) :
    lookupRow (c0 :: cs) (v :: vs) x = lookupRow cs vs x := by
  have h0 : c0 ≠ x := fun h => hx h.symm
  simp only [lookupRow, findLabel, if_neg h0]
  cases hm : findLabel x cs <;> simp [hm]

theorem alignRow_self {α : Type} :
    ∀ (cols : List String) (row : List (Option α)), cols.Nodup →
      row.length = cols.length → alignRow cols cols row = row
  | [], [], _, _ => rfl
  | [], _ :: _, _, h => by simp at h
  | _ :: _, [], _, h => by simp at h
  | c :: cs, v :: vs, hnd, h => by
    have h' : vs.length = cs.length := Nat.succ.inj h
    have hc : c ∉ cs := (List.nodup_cons.mp hnd).1
    have hnd' : cs.Nodup := (List.nodup_cons.mp hnd).2
    simp only [alignRow, List.map_cons]
    congr 1
    · simp [lookupRow, findLabel]
    · have hcg : cs.map (lookupRow (c :: cs) (v :: vs)) =
          cs.map (lookupRow cs vs) :=
        List.map_congr_left fun x hx =>
          lookupRow_cons_ne c x cs v vs fun hxc => hc (hxc ▸ hx)
      rw [hcg]
      exact alignRow_self cs vs hnd' h'

theorem unionLabels_of_sub (xs ys : List String) (h : ∀ y ∈ ys, y ∈ xs) :
    unionLabels xs ys = xs := by
  have hnil : (ys.filter fun y => decide (y ∉ xs)) = [] := by
    rw [List.filter_eq_nil_iff]
    intro a ha
    simp [h a ha]
  simp only [unionLabels, hnil, List.append_nil]

theorem getD_mem_of_lt {α : Type} (d : α) :
    ∀ (l : List α) (i : Nat), i < l.length → l.getD i d ∈ l
  | [], _, h => absurd h (by simp)
  | _ :: _, 0, _ => by simp
  | _ :: xs, i + 1, h =>
    List.mem_cons_of_mem _ (getD_mem_of_lt d xs i (Nat.lt_of_succ_lt_succ h))

theorem getD_map_of_lt {α β : Type} (f : α → β) (d : β) (d' : α) :
    ∀ (l : List α) (i : Nat), i < l.length →
      (l.map f).getD i d = f (l.getD i d')
  | [], _, h => absurd h (by simp)
  | _ :: _, 0, _ => rfl
  | _ :: xs, i + 1, h =>
    getD_map_of_lt f d d' xs i (Nat.lt_of_succ_lt_succ h)

theorem replicate_getD_none {α : Type} :
    ∀ (m k : Nat), (List.replicate m (none : Option α)).getD k none = none
  | 0, _ => rfl
  | _ + 1, 0 => rfl
  | m + 1, k + 1 => replicate_getD_none m k

theorem rowAt_not_mem {α : Type} (df : DataFrame (Option α)) (r : String)
    (h : r ∉ df.index) :
    rowAt df r = List.replicate df.columns.length none := by
  simp [rowAt, findLabel_eq_none r df.index h]

theorem rowAt_length {α : Type} (df : DataFrame (Option α)) (r : String)
    (hlen : df.data.length = df.index.length)
    (hrect : ∀ row ∈ df.data, row.length = df.columns.length) :
    (rowAt df r).length = df.columns.length := by
  unfold rowAt
  cases hm : findLabel r df.index with
  | none => simp
  | some i =>
    have hi : i < df.index.length := (findLabel_some_spec r df.index i hm).1
    have hid : i < df.data.length := by rw [hlen]; exact hi
    exact hrect _ (getD_mem_of_lt [] df.data i hid)

/-! ### C1, C2, C4, C5 -/

/-- C1: for every DataFrame and every column label present in its
columns, plain indexing `df[s]` and label-based `df.loc[:, s]` select
the same column, and the notebook's `equals()` check yields `True`. -/
theorem getitem_column_equals_loc_column {α : Type} [Inhabited α]
    [DecidableEq α] (df : DataFrame α) (s : String) (hs : s ∈ df.columns) :
    dfGetItem df s = dfLocCol df s ∧
      Option.map₂ Series.equals (dfGetItem df s) (dfLocCol df s) = some true := by
  obtain ⟨j, hj⟩ := findLabel_mem s df.columns hs
  have heq : dfGetItem df s = dfLocCol df s := by
    simp [dfGetItem, dfLocCol, hj, columnAt_eq_map]
  refine ⟨heq, ?_⟩
  rw [heq]
  simp [dfLocCol, hj, Series.equals]

/-- C1 witness: a concrete two-by-two expression matrix. -/
theorem getitem_column_equals_loc_column_witness :
    dfGetItem sampleDF "S2" = dfLocCol sampleDF "S2" ∧
      Option.map₂ Series.equals (dfGetItem sampleDF "S2") (dfLocCol sampleDF "S2") =
        some true :=
  getitem_column_equals_loc_column sampleDF "S2" (by decide)

/-- C2: on a well-formed tab-separated file whose header row holds the
sample identifiers and whose leading column holds the gene identifiers,
`read_csv` (the embedding of `pd.read_csv(..., sep='\t', header=0,
index_col=0)`) yields a DataFrame whose columns are the sample
identifiers, whose index is the gene identifiers, and whose cells are
the parsed decimal expression values. -/
theorem read_csv_header_index_spec (header : String) (body : List String)
    (corner : String) (samples : List String)
    (rows : List (String × List Decimal))
    (hh : splitTab header = corner :: samples)
    (hb : parseBody body = some rows) :
    read_csv (header :: body) =
      .ok ⟨rows.map Prod.fst, samples, rows.map Prod.snd⟩ := by
  simp [read_csv, hh, hb]

/-- C2 witness: a concrete three-line file. -/
theorem read_csv_header_index_spec_witness :
    read_csv ["Genes\tS1\tS2", "G1\t1.5\t2.25", "G2\t0.5\t3.1"] =
      .ok ⟨["G1", "G2"], ["S1", "S2"],
        [[⟨15, 1⟩, ⟨225, 2⟩], [⟨5, 1⟩, ⟨31, 1⟩]]⟩ := by
  simpa using read_csv_header_index_spec "Genes\tS1\tS2"
    ["G1\t1.5\t2.25", "G2\t0.5\t3.1"] "Genes" ["S1", "S2"]
    [("G1", [⟨15, 1⟩, ⟨225, 2⟩]), ("G2", [⟨5, 1⟩, ⟨31, 1⟩])]
    (by decide) (by decide)

/-- C4: a loading failure (missing or malformed input) propagates to the
caller unchanged — no notebook cell catches, retries or recovers. -/
theorem read_error_propagates_unhandled (lines : List String) (e : String)
    (h : read_csv lines = .error e) : loadAndRun lines = .error e := by
  simp [loadAndRun, h]

/-- C4 witness: a file with a malformed row. -/
theorem read_error_propagates_unhandled_witness :
    loadAndRun ["Genes\tS1", "G1\tabc"] = .error "ParserError: malformed row" :=
  read_error_propagates_unhandled ["Genes\tS1", "G1\tabc"]
    "ParserError: malformed row" (by decide)

/-- C5: for every row label present in the index, `df.loc[g]` returns
the row labelled `g` — found by its name, at whatever position it sits —
as a Series indexed by the column labels and named `g`. -/
theorem loc_row_label_lookup {α : Type} (df : DataFrame α) (g : String)
    (hg : g ∈ df.index) :
    df.index.getD ((findLabel g df.index).getD 0) "" = g ∧
      dfLocRow df g =
        some ⟨df.columns, g, df.data.getD ((findLabel g df.index).getD 0) []⟩ := by
  obtain ⟨i, hi⟩ := findLabel_mem g df.index hg
  have hspec := findLabel_some_spec g df.index i hi
  refine ⟨?_, ?_⟩
  · rw [hi]
    exact hspec.2
  · simp [dfLocRow, hi]

/-- C6: on a DataFrame with at least 10 columns, `df.iloc[:, :10]`
keeps all rows and exactly the first 10 columns in order, and
`df.iloc[:, -10:]` keeps all rows and exactly the last 10 columns;
both have shape `(rows(df), 10)`. -/
theorem iloc_first_last_ten {α : Type} (df : DataFrame α)
    (h : 10 ≤ df.columns.length) :
    (ilocColsTake df 10).shape = (df.index.length, 10) ∧
      (ilocColsTake df 10).index = df.index ∧
      (ilocColsTake df 10).columns ++ df.columns.drop 10 = df.columns ∧
      (ilocColsLast df 10).shape = (df.index.length, 10) ∧
      (ilocColsLast df 10).index = df.index ∧
      df.columns.take (df.columns.length - 10) ++ (ilocColsLast df 10).columns =
        df.columns := by
  refine ⟨?_, rfl, ?_, ?_, rfl, ?_⟩
  · simp [ilocColsTake, DataFrame.shape, Nat.min_eq_left h]
  · simp [ilocColsTake]
  · simp [ilocColsLast, DataFrame.shape, Nat.sub_sub_self h]
  · simp [ilocColsLast]

/-- C6 witness: a matrix with 12 columns. -/
theorem iloc_first_last_ten_witness :
    (ilocColsTake sampleWideDF 10).shape = (sampleWideDF.index.length, 10) ∧
      (ilocColsTake sampleWideDF 10).index = sampleWideDF.index ∧
      (ilocColsTake sampleWideDF 10).columns ++ sampleWideDF.columns.drop 10 =
        sampleWideDF.columns ∧
      (ilocColsLast sampleWideDF 10).shape = (sampleWideDF.index.length, 10) ∧
      (ilocColsLast sampleWideDF 10).index = sampleWideDF.index ∧
      sampleWideDF.columns.take (sampleWideDF.columns.length - 10) ++
        (ilocColsLast sampleWideDF 10).columns = sampleWideDF.columns :=
  iloc_first_last_ten sampleWideDF (by decide)

/-- C7: the notebook never mutates the loaded DataFrame: every
demonstrated operation only reads `df`, and after all cells have run,
`df` — its index, its columns, and all of its data — is unchanged. -/
theorem notebook_never_mutates_df (df : DataFrame Cell) :
    (runNotebook df).df = df ∧ (runNotebook df).df.index = df.index ∧
      (runNotebook df).df.columns = df.columns ∧
      (runNotebook df).df.data = df.data :=
  ⟨rfl, rfl, rfl, rfl⟩

/-- C8: the notebook's effect trace holds no file write — every effect
is a console print except for the single read of the expression file. -/
theorem notebook_effects_console_only (df : DataFrame Cell) :
    (notebookEffects df).countP Effect.isWrite = 0 ∧
      (notebookEffects df).countP Effect.isRead = 1 ∧
      ∀ e ∈ notebookEffects df, e.isWrite = false := by
  refine ⟨rfl, rfl, ?_⟩
  intro e he
  fin_cases he <;> rfl

/-- C9: for the Boolean mask `sel = df.index.str.startswith(p)` (one
entry per row), `df.loc[sel]` keeps exactly the rows at the positions
where `sel` is true, in their original order, with the columns
unchanged; its row count is `sel.sum()`, the number of true entries. -/
theorem loc_boolean_mask_selection {α : Type} (df : DataFrame α) (p : String)
    (hlen : df.data.length = df.index.length) :
    (locMask df (indexStartsWith df p)).columns = df.columns ∧
      (locMask df (indexStartsWith df p)).index.length =
        (indexStartsWith df p).count true ∧
      (locMask df (indexStartsWith df p)).data.length =
        (indexStartsWith df p).count true ∧
      (locMask df (indexStartsWith df p)).index.Sublist df.index ∧
      (locMask df (indexStartsWith df p)).data.Sublist df.data ∧
      (locMask df (indexStartsWith df p)).index =
        (List.range df.index.length).filterMap (fun i =>
          if (indexStartsWith df p).getD i false then df.index.get? i else none) ∧
      (locMask df (indexStartsWith df p)).data =
        (List.range df.data.length).filterMap (fun i =>
          if (indexStartsWith df p).getD i false then df.data.get? i else none) := by
  have hsel : (indexStartsWith df p).length = df.index.length := by
    simp [indexStartsWith]
  have hseld : (indexStartsWith df p).length = df.data.length :=
    hsel.trans hlen.symm
  exact ⟨rfl, applyMask_length _ _ hsel, applyMask_length _ _ hseld,
    applyMask_sublist _ _ hsel, applyMask_sublist _ _ hseld,
    applyMask_eq_range _ _ hsel, applyMask_eq_range _ _ hseld⟩

/-- C9 witness: selecting the genes starting with `G` in a concrete
matrix. -/
theorem loc_boolean_mask_selection_witness :
    (locMask sampleDF (indexStartsWith sampleDF "G")).columns =
        sampleDF.columns ∧
      (locMask sampleDF (indexStartsWith sampleDF "G")).index.length =
        (indexStartsWith sampleDF "G").count true ∧
      (locMask sampleDF (indexStartsWith sampleDF "G")).data.length =
        (indexStartsWith sampleDF "G").count true ∧
      (locMask sampleDF (indexStartsWith sampleDF "G")).index.Sublist
        sampleDF.index ∧
      (locMask sampleDF (indexStartsWith sampleDF "G")).data.Sublist
        sampleDF.data ∧
      (locMask sampleDF (indexStartsWith sampleDF "G")).index =
        (List.range sampleDF.index.length).filterMap (fun i =>
          if (indexStartsWith sampleDF "G").getD i false then
            sampleDF.index.get? i else none) ∧
      (locMask sampleDF (indexStartsWith sampleDF "G")).data =
        (List.range sampleDF.data.length).filterMap (fun i =>
          if (indexStartsWith sampleDF "G").getD i false then
            sampleDF.data.get? i else none) :=
  loc_boolean_mask_selection sampleDF "G" (by decide)

/-- C10: for two DataFrames with identical column labels, row-wise
concatenation `pd.concat([X, Y], axis=0)` stacks the rows of `X`
followed by the rows of `Y` with the columns unchanged, so the row
count is the sum; omitting the `axis` argument gives the same result,
0 being the default. -/
theorem concat_axis0_same_columns {α : Type} (X Y : DataFrame (Option α))
    (hcols : Y.columns = X.columns) (hnd : X.columns.Nodup)
    (hrX : ∀ row ∈ X.data, row.length = X.columns.length)
    (hrY : ∀ row ∈ Y.data, row.length = Y.columns.length) :
    concatNoAxis X Y = concat X Y 0 ∧
      (concat X Y 0).index = X.index ++ Y.index ∧
      (concat X Y 0).columns = X.columns ∧
      (concat X Y 0).data = X.data ++ Y.data ∧
      (concat X Y 0).index.length = X.index.length + Y.index.length := by
  have hu : unionLabels X.columns Y.columns = X.columns :=
    unionLabels_of_sub _ _ fun y hy => hcols ▸ hy
  have hdX : X.data.map (alignRow X.columns X.columns) = X.data := by
    rw [List.map_congr_left fun row hrow => alignRow_self _ _ hnd (hrX row hrow)]
    exact List.map_id _
  have hdY : Y.data.map (alignRow X.columns Y.columns) = Y.data := by
    rw [List.map_congr_left (g := id) fun row hrow => ?_, List.map_id]
    rw [hcols]
    exact alignRow_self _ _ hnd ((hrY row hrow).trans (by rw [hcols]))
  refine ⟨rfl, rfl, ?_, ?_, ?_⟩
  · simp [concat, concatAxis0, hu]
  · simp only [concat, concatAxis1, if_neg (by decide : ¬(0 = 1)), concatAxis0]
    rw [hu, hdX, hdY]
  · simp [concat, concatAxis0]

/-- C10 witness: stacking two concrete one-row matrices with the same
two columns. -/
theorem concat_axis0_same_columns_witness :
    concatNoAxis rowDF_A rowDF_Z = concat rowDF_A rowDF_Z 0 ∧
      (concat rowDF_A rowDF_Z 0).index = rowDF_A.index ++ rowDF_Z.index ∧
      (concat rowDF_A rowDF_Z 0).columns = rowDF_A.columns ∧
      (concat rowDF_A rowDF_Z 0).data = rowDF_A.data ++ rowDF_Z.data ∧
      (concat rowDF_A rowDF_Z 0).index.length =
        rowDF_A.index.length + rowDF_Z.index.length :=
  concat_axis0_same_columns rowDF_A rowDF_Z (by decide) (by decide)
    (by decide) (by decide)

/-- C3: column-wise concatenation of two tables with disjoint row sets
and the same 30 columns: `pd.concat([X, Y], axis=1)` aligns on the row
labels, producing the union of the two row sets and 30 + 30 = 60
columns, and every cell at a (row, column) pair not present in the
originating table — an `X` row at a `Y` column position, or a `Y` row
at an `X` column position — is NaN. -/
theorem concat_axis1_disjoint_nan_fill {α : Type} (X Y : DataFrame (Option α))
    (i j : Nat)
    (hdisj : ∀ r ∈ X.index, r ∉ Y.index)
    (hlenX : X.data.length = X.index.length)
    (hlenY : Y.data.length = Y.index.length)
    (hrX : ∀ row ∈ X.data, row.length = X.columns.length)
    (hrY : ∀ row ∈ Y.data, row.length = Y.columns.length)
    (hsame : Y.columns = X.columns) (h30 : X.columns.length = 30)
    (hij : (i < X.index.length ∧ X.columns.length ≤ j) ∨
      (X.index.length ≤ i ∧ i < X.index.length + Y.index.length ∧
        j < X.columns.length)) :
    (concat X Y 1).index = X.index ++ Y.index ∧
      (concat X Y 1).columns.length = 60 ∧
      ((concat X Y 1).data.getD i []).getD j none = none := by
  have hidx : unionLabels X.index Y.index = X.index ++ Y.index := by
    unfold unionLabels
    congr 1
    rw [List.filter_eq_self]
    intro a ha
    simp only [decide_eq_true_eq]
    intro hax
    exact hdisj a hax ha
  refine ⟨?_, ?_, ?_⟩
  · simp only [concat, if_pos rfl, concatAxis1]
    exact hidx
  · simp [concat, concatAxis1, hsame, h30]
  · have hdata : (concat X Y 1).data =
        (X.index ++ Y.index).map (pairRows X Y) := by
      simp [concat, concatAxis1, hidx]
    rw [hdata]
    have hi_lt : i < (X.index ++ Y.index).length := by
      rw [List.length_append]
      rcases hij with ⟨h1, _⟩ | ⟨_, h2, _⟩
      · exact Nat.lt_of_lt_of_le h1 (Nat.le_add_right _ _)
      · exact h2
    rw [getD_map_of_lt (pairRows X Y) [] "" _ i hi_lt]
    rcases hij with ⟨hiX, hjX⟩ | ⟨hge, hlt, hjlt⟩
    · rw [List.getD_append _ _ _ _ hiX]
      have hrmem : X.index.getD i "" ∈ X.index := getD_mem_of_lt "" X.index i hiX
      have hlx : (rowAt X (X.index.getD i "")).length = X.columns.length :=
        rowAt_length X _ hlenX hrX
      rw [pairRows,
        rowAt_not_mem Y (X.index.getD i "") (hdisj _ hrmem),
        List.getD_append_right _ _ _ _ (by rw [hlx]; exact hjX)]
      exact replicate_getD_none _ _
    · rw [List.getD_append_right _ _ _ _ hge]
      have hrmem : Y.index.getD (i - X.index.length) "" ∈ Y.index :=
        getD_mem_of_lt "" Y.index _ (by omega)
      have hnX : Y.index.getD (i - X.index.length) "" ∉ X.index :=
        fun hmem => hdisj _ hmem hrmem
      rw [pairRows, rowAt_not_mem X _ hnX,
        List.getD_append _ _ _ _ (by simpa using hjlt)]
      exact replicate_getD_none _ _

/-- C3 witness: two one-row tables with 30 identical columns and
disjoint rows, checked at an `X` row and a `Y` column position. -/
theorem concat_axis1_disjoint_nan_fill_witness :
    (concat wideDF_A wideDF_Z 1).index = wideDF_A.index ++ wideDF_Z.index ∧
      (concat wideDF_A wideDF_Z 1).columns.length = 60 ∧
      ((concat wideDF_A wideDF_Z 1).data.getD 0 []).getD 35 none = none :=
  concat_axis1_disjoint_nan_fill wideDF_A wideDF_Z 0 35 (by decide)
    (by decide) (by decide) (by decide) (by decide) (by decide) (by decide)
    (by decide)

/-- C5 witness: looking up gene `G2` in a concrete matrix. -/
theorem loc_row_label_lookup_witness :
    sampleDF.index.getD ((findLabel "G2" sampleDF.index).getD 0) "" = "G2" ∧
      dfLocRow sampleDF "G2" =
        some ⟨sampleDF.columns, "G2",
          sampleDF.data.getD ((findLabel "G2" sampleDF.index).getD 0) []⟩ :=
  loc_row_label_lookup sampleDF "G2" (by decide)

end GeneWorkshop
